import Mathlib

/-!
Verification of the TSR / TSRChain constraint library (`src/prpy/tsr/tsr.py`).

Modelling conventions:
* Python floats are idealized as exact rationals (`ℚ`).  `math.pi` is the
  IEEE-754 double closest to π, which is the exact rational
  884279719003555 / 2^48; `EPSILON = 0.001` is idealized as `1/1000`.
* `float('nan')` entries of a pose vector are modelled as `none : Option ℚ`
  (IEEE comparisons against NaN are false, which the model mirrors by
  letting every bound check of a `none` entry fail).
* 4x4 homogeneous transforms are `Matrix (Fin 4) (Fin 4) ℚ`; `numpy.dot`
  is matrix multiplication and `numpy.linalg.inv` is `Matrix.inv`.
* Raised Python exceptions are modelled with `Except String`; the string
  records which error is raised.
* The `kin` pose-math module, `prpy.util.GeodesicDistance` and
  `scipy.optimize.fmin_l_bfgs_b` are not part of the sources; the spec
  (sections 2 and 6) treats them as external collaborators, so they enter
  the model as opaque parameters (`Kin`, `g`, `opt`).
* Python dictionaries produced and consumed by the serialization methods
  are modelled by the dynamic value type `PyVal`; the JSON/YAML text
  encodings are faithful wrappers around the dictionary form (spec §6), so
  the text layer is modelled as the identity on `PyVal` records.
-/

namespace Prpy

/-- 4x4 homogeneous transform over the idealized reals. -/
abbrev Mat4 := Matrix (Fin 4) (Fin 4) ℚ

/-- A concrete `[x y z roll pitch yaw]` chart vector. -/
abbrev Pose6 := Fin 6 → ℚ

/-- A chart vector whose entries may be `float('nan')` (`none`). -/
abbrev Pose6N := Fin 6 → Option ℚ

/-- `math.pi`: the IEEE-754 double nearest π, as an exact rational. -/
def piQ : ℚ := 884279719003555 / 281474976710656

/-- `EPSILON = 0.001` from the source. -/
def EPSILON : ℚ := 1 / 1000

/-- Python's float `%` for a positive modulus: `a % b = a - b*floor(a/b)`. -/
def pymod (a b : ℚ) : ℚ := a - b * (Int.floor (a / b) : ℚ)

/-- The source's wrap of an angle to `[-pi, pi]`: `(x + pi) % (2*pi) - pi`. -/
def wrapAngle (x : ℚ) : ℚ := pymod (x + piQ) (2 * piQ) - piQ

/-- A Task-Space-Region record: `T0_w`, `Tw_e`, the 6x2 bound box `Bw`
(row `i` is the pair `(min, max)`), the manipulator index and the
body-and-link tag. -/
structure TSR where
  T0_w : Mat4
  Tw_e : Mat4
  Bw : Fin 6 → ℚ × ℚ
  manipindex : Int
  bodyandlink : String

/-- `any((Bw[:, 1]-Bw[:, 0]) > 2*pi + EPSILON)` from `TSR.__init__`,
unrolled over the six rows exactly as the generator visits them. -/
def bwOverLimit (Bw : Fin 6 → ℚ × ℚ) : Bool :=
  decide ((Bw 0).2 - (Bw 0).1 > 2 * piQ + EPSILON) ||
  decide ((Bw 1).2 - (Bw 1).1 > 2 * piQ + EPSILON) ||
  decide ((Bw 2).2 - (Bw 2).1 > 2 * piQ + EPSILON) ||
  decide ((Bw 3).2 - (Bw 3).1 > 2 * piQ + EPSILON) ||
  decide ((Bw 4).2 - (Bw 4).1 > 2 * piQ + EPSILON) ||
  decide ((Bw 5).2 - (Bw 5).1 > 2 * piQ + EPSILON)

/-- `TSR.__init__` (tsr.py lines 43-62): defaults `T0_w`/`Tw_e` to the
identity and `Bw` to the zero box; when `Bw` is supplied, raises
`ValueError` when some row's range exceeds `2*pi + EPSILON`; `manip=None`
gives `manipindex = -1` (the openrave `Robot` branch of the `manip`
argument is outside the model, so `manip` is an optional integer). -/
def TSR.init (T0_w? Tw_e? : Option Mat4) (Bw? : Option (Fin 6 → ℚ × ℚ))
    (manip? : Option Int) (bodyandlink : String) : Except String TSR :=
  let T0_w := T0_w?.getD 1
  let Tw_e := Tw_e?.getD 1
  match Bw? with
  | none =>
      Except.ok ⟨T0_w, Tw_e, fun _ => (0, 0), manip?.getD (-1), bodyandlink⟩
  | some Bw =>
      if bwOverLimit Bw then
        Except.error "ValueError: Bw range must be within 2*PI"
      else Except.ok ⟨T0_w, Tw_e, Bw, manip?.getD (-1), bodyandlink⟩

/-- `TSR.is_valid` (tsr.py lines 97-125): per-DOF bound check.
Translational rows are compared against the raw bounds with `EPSILON`
slack; rotational rows compare the wrapped candidate against the
independently wrapped bounds; with `ignoreNAN` every NaN entry of the pose
is forced to `True` after the comparison. -/
def TSR.is_valid (t : TSR) (xyzrpy : Pose6N) (ignoreNAN : Bool) : Fin 6 → Bool :=
  fun i =>
    if ignoreNAN && (xyzrpy i).isNone then true
    else
      match xyzrpy i with
      | none => false
      | some x =>
          if i.val < 3 then
            decide (x + EPSILON ≥ (t.Bw i).1 ∧ x - EPSILON ≤ (t.Bw i).2)
          else
            decide (wrapAngle x + EPSILON ≥ wrapAngle (t.Bw i).1 ∧
                    wrapAngle x - EPSILON ≤ wrapAngle (t.Bw i).2)

/-- Lift a NaN-free pose into the model's pose type. -/
def somePose (b : Pose6) : Pose6N := fun i => some (b i)

/-- Python's `all` over the 6-vector returned by `TSR.is_valid`. -/
def allB (v : Fin 6 → Bool) : Bool :=
  v 0 && v 1 && v 2 && v 3 && v 4 && v 5

/-- The reorder `[x, y, z, roll, pitch, yaw] -> [x, y, z, yaw, pitch, roll]`
performed by `to_transform` before calling `kin` (tsr.py lines 77-78) and,
being an involution, by `to_xyzrpy` on the way back (lines 93-94). -/
def swapRollYaw (b : Pose6) : Pose6 :=
  fun i => if i.val = 3 then b 5 else if i.val = 5 then b 3 else b i

/-- Modelled from the spec: the `kin` pose-math module is not part of the
sources (the spec, sections 2 and 6, treats it as an external collaborator
interface).  `Tw` is the composite `kin.pose_to_H (kin.pose_from_xyzypr v)`
mapping an `[x y z yaw pitch roll]` chart vector to a 4x4 transform, and
`fromH` is the composite decomposition `kin.pose_from_H` followed by
`kin.quat_to_ypr`, returning the `[x y z yaw pitch roll]` chart vector of a
transform. -/
structure Kin where
  Tw : Pose6 → Mat4
  fromH : Mat4 → Pose6

/-- numpy's error for `not` (or `if`) applied to a multi-element array. -/
def ambiguousTruthMsg : String :=
  "ValueError: The truth value of an array with more than one element is ambiguous. Use a.any() or a.all()"

/-- `TSR.to_transform` (tsr.py lines 64-81): after the length-6 check
(enforced here by the type), the source runs `if not self.is_valid(xyzrpy):`.
`is_valid` returns `numpy.hstack((xyzcheck, rpycheck))`, a 6-element numpy
boolean array, and `not` on a multi-element array raises numpy's
ambiguous-truth-value `ValueError`, so every call fails at line 74: the
`raise ValueError('Invalid xyzrpy')` branch and the transform computation
`T0_w * Tw(xyzypr) * Tw_e` of lines 77-81 are unreachable dead code. -/
def TSR.to_transform (_K : Kin) (_t : TSR) (_b : Pose6) : Except String Mat4 :=
  Except.error ambiguousTruthMsg

/-- `TSR.to_xyzrpy` (tsr.py lines 83-95): conjugates by the inverses of
`T0_w` and `Tw_e` and decomposes the residual transform through `kin`,
reordering yaw-pitch-roll back to roll-pitch-yaw. -/
noncomputable def TSR.to_xyzrpy (K : Kin) (t : TSR) (trans : Mat4) : Pose6 :=
  swapRollYaw (K.fromH (t.T0_w⁻¹ * trans * t.Tw_e⁻¹))

/-- `TSR.contains` (tsr.py lines 127-134): `is_valid (to_xyzrpy trans)`. -/
noncomputable def TSR.contains (K : Kin) (t : TSR) (trans : Mat4) : Fin 6 → Bool :=
  t.is_valid (somePose (t.to_xyzrpy K trans)) false

/-- `TSR.distance` (tsr.py lines 136-159): if the transform is already
contained, return distance `0` with the chart point `to_xyzrpy trans`;
otherwise run the external bounded minimizer `opt`
(`scipy.optimize.fmin_l_bfgs_b`, an external collaborator) on the geodesic
objective built from the external metric `g` (`prpy.util.GeodesicDistance`,
also external), started at the per-DOF box midpoint with the box bounds,
and return `(dist, bwopt)` from the minimizer's `(x, f)` result. -/
noncomputable def TSR.distance (K : Kin) (g : Mat4 → Mat4 → ℚ)
    (opt : (Pose6 → Except String ℚ) → Pose6 → (Fin 6 → ℚ × ℚ) → Pose6 × ℚ)
    (t : TSR) (trans : Mat4) : ℚ × Pose6 :=
  if allB (t.contains K trans) then (0, t.to_xyzrpy K trans)
  else
    let objective : Pose6 → Except String ℚ :=
      fun bw => (t.to_transform K bw).map fun bwtrans => g bwtrans trans
    let bwinit : Pose6 := fun i => ((t.Bw i).1 + (t.Bw i).2) / 2
    let r := opt objective bwinit t.Bw
    (r.2, r.1)

/-- `TSR.sample_xyzrpy` (tsr.py lines 161-176): validates the input with
`ignoreNAN`, then draws each NaN entry uniformly from its row of `Bw`
(`u i` models the `numpy.random.random_sample()` draw for DOF `i`) and
passes every concrete entry through unchanged. -/
def TSR.sample_xyzrpy (t : TSR) (xyzrpy : Pose6N) (u : Fin 6 → ℚ) :
    Except String Pose6 :=
  if allB (t.is_valid xyzrpy true) then
    Except.ok fun i =>
      match xyzrpy i with
      | none => (t.Bw i).1 + ((t.Bw i).2 - (t.Bw i).1) * u i
      | some x => x
  else Except.error "ValueError: xyzrpy must be within bounds"

/-- `TSR.sample` (tsr.py lines 178-187): `to_transform (sample_xyzrpy p)`. -/
def TSR.sample (K : Kin) (t : TSR) (xyzrpy : Pose6N) (u : Fin 6 → ℚ) :
    Except String Mat4 :=
  match t.sample_xyzrpy xyzrpy u with
  | Except.error e => Except.error e
  | Except.ok b => t.to_transform K b

/-- A Python value as passed around by the serialization methods. -/
inductive PyVal where
  | num (q : ℚ)
  | int (n : Int)
  | str (s : String)
  | bool (b : Bool)
  | list (l : List PyVal)
  | dict (l : List (String × PyVal))

/-- Numeric content of a `PyVal` (used where numpy coerces elements). -/
def PyVal.toQ : PyVal → ℚ
  | PyVal.num q => q
  | PyVal.int n => (n : ℚ)
  | _ => 0

/-- List content of a `PyVal`. -/
def PyVal.toList : PyVal → List PyVal
  | PyVal.list l => l
  | _ => []

/-- `int(...)` applied to a deserialized value (the dictionaries written by
`to_dict` always store `manipindex` as an integer). -/
def PyVal.toInt : PyVal → Int
  | PyVal.int n => n
  | _ => 0

/-- `str(...)` applied to a deserialized value. -/
def PyVal.toStr : PyVal → String
  | PyVal.str s => s
  | _ => ""

/-- Python's `x[k]` on a dictionary: raises `KeyError` on a missing key. -/
def PyVal.getItem (v : PyVal) (k : String) : Except String PyVal :=
  match v with
  | PyVal.dict l =>
      match l.lookup k with
      | some w => Except.ok w
      | none => Except.error ("KeyError: " ++ k)
  | _ => Except.error "TypeError: not a dict"

/-- Python's `x.get(k, default)` on a dictionary. -/
def PyVal.get (v : PyVal) (k : String) (d : PyVal) : PyVal :=
  match v with
  | PyVal.dict l => (l.lookup k).getD d
  | _ => d

/-- `matrix.tolist()`: a 4x4 matrix as a nested list record. -/
def dumpMat4 (M : Mat4) : PyVal :=
  PyVal.list ((List.finRange 4).map fun i =>
    PyVal.list ((List.finRange 4).map fun j => PyVal.num (M i j)))

/-- `numpy.array(...)` on a well-formed nested 4x4 list record. -/
def parseMat4 (v : PyVal) : Mat4 :=
  Matrix.of fun i j =>
    ((v.toList.getD i.val (PyVal.list [])).toList.getD j.val (PyVal.num 0)).toQ

/-- `Bw.tolist()`: the 6x2 box as a nested list record. -/
def dumpBw (Bw : Fin 6 → ℚ × ℚ) : PyVal :=
  PyVal.list ((List.finRange 6).map fun i =>
    PyVal.list [PyVal.num (Bw i).1, PyVal.num (Bw i).2])

/-- `numpy.array(...)` on a well-formed nested 6x2 list record. -/
def parseBw (v : PyVal) : Fin 6 → ℚ × ℚ :=
  fun i =>
    (((v.toList.getD i.val (PyVal.list [])).toList.getD 0 (PyVal.num 0)).toQ,
     ((v.toList.getD i.val (PyVal.list [])).toList.getD 1 (PyVal.num 0)).toQ)

/-- `TSR.to_dict` (tsr.py lines 189-197). -/
def TSR.to_dict (t : TSR) : PyVal :=
  PyVal.dict
    [("T0_w", dumpMat4 t.T0_w),
     ("Tw_e", dumpMat4 t.Tw_e),
     ("Bw", dumpBw t.Bw),
     ("manipindex", PyVal.int t.manipindex),
     ("bodyandlink", PyVal.str t.bodyandlink)]

/-- `TSR.from_dict` (tsr.py lines 199-208): the three matrix keys are
looked up with `x[...]` (KeyError on absence, in argument order), while
`manipindex` and `bodyandlink` use `x.get` with defaults `-1` / `"NULL"`;
the result goes through the validating constructor. -/
def TSR.from_dict (x : PyVal) : Except String TSR := do
  let v0 ← x.getItem "T0_w"
  let v1 ← x.getItem "Tw_e"
  let v2 ← x.getItem "Bw"
  TSR.init (some (parseMat4 v0)) (some (parseMat4 v1)) (some (parseBw v2))
    (some ((x.get "manipindex" (PyVal.int (-1))).toInt))
    ((x.get "bodyandlink" (PyVal.str "NULL")).toStr)

/-- `TSR.to_json` / `TSR.to_yaml` (tsr.py lines 210-213, 226-229): the
text encodings are faithful wrappers around the dictionary (spec §6), so
the text layer is the identity on records. -/
def TSR.to_json (t : TSR) : PyVal := t.to_dict

/-- `TSR.from_json` (tsr.py lines 215-224). -/
def TSR.from_json (x : PyVal) : Except String TSR := TSR.from_dict x

/-- `TSR.to_yaml` (tsr.py lines 226-229). -/
def TSR.to_yaml (t : TSR) : PyVal := t.to_dict

/-- `TSR.from_yaml` (tsr.py lines 231-240). -/
def TSR.from_yaml (x : PyVal) : Except String TSR := TSR.from_dict x

/-- A TSR chain record (tsr.py lines 243-278): the planner flags, the
mimic-body fields and the ordered TSR list. -/
structure TSRChain where
  sample_start : Bool
  sample_goal : Bool
  constrain : Bool
  mimicbodyname : String
  mimicbodyjoints : List Int
  TSRs : List TSR

/-- `TSRChain.to_dict` (tsr.py lines 283-292). -/
def TSRChain.to_dict (c : TSRChain) : PyVal :=
  PyVal.dict
    [("sample_goal", PyVal.bool c.sample_goal),
     ("sample_start", PyVal.bool c.sample_start),
     ("constrain", PyVal.bool c.constrain),
     ("mimicbodyname", PyVal.str c.mimicbodyname),
     ("mimicbodyjoints", PyVal.list (c.mimicbodyjoints.map PyVal.int)),
     ("tsrs", PyVal.list (c.TSRs.map TSR.to_dict))]

/-- Boolean content of a `PyVal`. -/
def PyVal.toBool : PyVal → Bool
  | PyVal.bool b => b
  | _ => false

/-- `TSRChain.from_dict` (tsr.py lines 294-304): the chain's own (correct)
dictionary constructor; every key is accessed with `x[...]`. -/
def TSRChain.from_dict (x : PyVal) : Except String TSRChain := do
  let vs ← x.getItem "sample_start"
  let vg ← x.getItem "sample_goal"
  let vc ← x.getItem "constrain"
  let vts ← x.getItem "tsrs"
  let vn ← x.getItem "mimicbodyname"
  let vj ← x.getItem "mimicbodyjoints"
  let tsrs ← vts.toList.mapM TSR.from_dict
  Except.ok
    ⟨vs.toBool, vg.toBool, vc.toBool, vn.toStr,
     vj.toList.map PyVal.toInt, tsrs⟩

/-- `TSRChain.to_json` (tsr.py lines 306-309). -/
def TSRChain.to_json (c : TSRChain) : PyVal := c.to_dict

/-- `TSRChain.from_json` (tsr.py lines 311-320): the source delegates to
`TSR.from_dict` on the decoded chain dictionary (not to
`TSRChain.from_dict`), which the model reproduces verbatim. -/
def TSRChain.from_json (x : PyVal) : Except String TSR := TSR.from_dict x

/-- `TSRChain.to_yaml` (tsr.py lines 322-325). -/
def TSRChain.to_yaml (c : TSRChain) : PyVal := c.to_dict

/-- `TSRChain.from_yaml` (tsr.py lines 327-336): also delegates to
`TSR.from_dict`. -/
def TSRChain.from_yaml (x : PyVal) : Except String TSR := TSR.from_dict x

/-- `TSRChain.is_valid` (tsr.py lines 338-353): on a length mismatch the
source executes `raise('Sample must be ...')`, which in Python 3 aborts the
call with a `TypeError` (raising a plain string); either way the call
fails before any per-element check, which the model records with the
intended message.  On matching lengths it delegates element-wise. -/
def TSRChain.is_valid (c : TSRChain) (xyzrpy : List Pose6N) (ignoreNAN : Bool) :
    Except String (List (Fin 6 → Bool)) :=
  if xyzrpy.length = c.TSRs.length then
    Except.ok (List.zipWith (fun t p => t.is_valid p ignoreNAN) c.TSRs xyzrpy)
  else Except.error "Sample must be of equal length to TSR chain!"

/-- The `for` loop of `TSRChain.to_transform` (tsr.py lines 367-373): set
the current TSR's `T0_w` to the accumulated transform, compute its
transform, and continue; returns the final transform together with the
list of (mutated) chain elements.  Indexing `xyzrpy[idx]` past the end of
the pose list is an `IndexError`. -/
def chainStep (K : Kin) : Mat4 → List TSR → List Pose6 →
    Except String (Mat4 × List TSR)
  | acc, [], _ => Except.ok (acc, [])
  | _, _ :: _, [] => Except.error "IndexError: list index out of range"
  | acc, t :: ts, p :: ps =>
      let tCur : TSR := { t with T0_w := acc }
      match tCur.to_transform K p with
      | Except.error e => Except.error e
      | Except.ok T =>
          match chainStep K T ts ps with
          | Except.error e => Except.error e
          | Except.ok r => Except.ok (r.1, tCur :: r.2)

/-- `TSRChain.to_transform` (tsr.py lines 355-373): validates every
element, raises `ValueError` if any per-element check fails, then reads
`TSRs[0].T0_w` (an `IndexError` on an empty chain) and folds the loop.
The returned list is the chain's TSR list after the loop's `T0_w`
mutations. -/
def TSRChain.to_transform (K : Kin) (c : TSRChain) (xyzrpy : List Pose6) :
    Except String (Mat4 × List TSR) :=
  match c.is_valid (xyzrpy.map somePose) false with
  | Except.error e => Except.error e
  | Except.ok check =>
      if check.any fun v => ! allB v then
        Except.error "ValueError: Invalid xyzrpy"
      else
        match c.TSRs with
        | [] => Except.error "IndexError: list index out of range"
        | t0 :: _ => chainStep K t0.T0_w c.TSRs xyzrpy

/-- The element-wise loop of `TSRChain.sample_xyzrpy` (tsr.py lines
388-392); `u idx` models the random draws consumed by element `idx`. -/
def sampleFrom (u : Nat → Fin 6 → ℚ) :
    Nat → List TSR → List Pose6N → Except String (List Pose6)
  | _, [], _ => Except.ok []
  | _, _ :: _, [] => Except.error "IndexError: list index out of range"
  | idx, t :: ts, p :: ps =>
      match t.sample_xyzrpy p (u idx) with
      | Except.error e => Except.error e
      | Except.ok r =>
          match sampleFrom u (idx + 1) ts ps with
          | Except.error e => Except.error e
          | Except.ok rest => Except.ok (r :: rest)

/-- `TSRChain.sample_xyzrpy` (tsr.py lines 375-392): defaults to one
all-NaN pose per chain element. -/
def TSRChain.sample_xyzrpy (c : TSRChain) (xyzrpy? : Option (List Pose6N))
    (u : Nat → Fin 6 → ℚ) : Except String (List Pose6) :=
  sampleFrom u 0 c.TSRs
    (xyzrpy?.getD (List.replicate c.TSRs.length fun _ => none))

/-- `TSRChain.sample` (tsr.py lines 394-403):
`to_transform (sample_xyzrpy None)`. -/
def TSRChain.sample (K : Kin) (c : TSRChain) (u : Nat → Fin 6 → ℚ) :
    Except String Mat4 :=
  match c.sample_xyzrpy none u with
  | Except.error e => Except.error e
  | Except.ok s =>
      match c.to_transform K s with
      | Except.error e => Except.error e
      | Except.ok r => Except.ok r.1

/-- The objective function closed over by `TSRChain.distance` (tsr.py
lines 414-417): the chained transform of the (reshaped) stacked chart
vector, measured against the target by the external metric `g`. -/
def TSRChain.distanceObjective (K : Kin) (g : Mat4 → Mat4 → ℚ)
    (c : TSRChain) (trans : Mat4) (bwStack : List Pose6) : Except String ℚ :=
  match c.to_transform K bwStack with
  | Except.error e => Except.error e
  | Except.ok r => Except.ok (g r.1 trans)

/-- `TSRChain.distance` (tsr.py lines 405-430): joint bounded minimization
over the stacked chart vectors, via the external minimizer `opt`. -/
def TSRChain.distance (K : Kin) (g : Mat4 → Mat4 → ℚ)
    (opt : (List Pose6 → Except String ℚ) → List Pose6 → List (ℚ × ℚ) →
      List Pose6 × ℚ)
    (c : TSRChain) (trans : Mat4) : ℚ × List Pose6 :=
  let bwinit := c.TSRs.map fun t => fun i => ((t.Bw i).1 + (t.Bw i).2) / 2
  let bwbounds := c.TSRs.flatMap fun t => (List.finRange 6).map t.Bw
  let r := opt (c.distanceObjective K g trans) bwinit bwbounds
  (r.2, r.1)

/-- `Except.isOk`: whether a call returned normally. -/
def isOkE {ε α : Type} : Except ε α → Bool
  | Except.ok _ => true
  | Except.error _ => false

/- ### Concrete instances used by counterexamples and witnesses -/

/-- A concrete realization of the external `kin` interface, used only to
evaluate the development on concrete inputs: the chart vector is stored in
the strictly-upper-triangular entries of a unipotent matrix, so `fromH0`
recovers it exactly. -/
def Tw0 (b : Pose6) : Mat4 :=
  Matrix.of fun i j =>
    if i = j then 1
    else if i.val = 0 ∧ j.val = 3 then b 0
    else if i.val = 1 ∧ j.val = 3 then b 1
    else if i.val = 2 ∧ j.val = 3 then b 2
    else if i.val = 0 ∧ j.val = 1 then b 3
    else if i.val = 0 ∧ j.val = 2 then b 4
    else if i.val = 1 ∧ j.val = 2 then b 5
    else 0

/-- The decomposition matching `Tw0`. -/
def fromH0 (M : Mat4) : Pose6 :=
  fun i =>
    if i.val = 0 then M 0 3
    else if i.val = 1 then M 1 3
    else if i.val = 2 then M 2 3
    else if i.val = 3 then M 0 1
    else if i.val = 4 then M 0 2
    else M 1 2

/-- The concrete `Kin` instance built from `Tw0` and `fromH0`. -/
def K0 : Kin := ⟨Tw0, fromH0⟩

/-- A TSR whose roll bound interval `[3, 4]` straddles π ≈ 3.14159. -/
def tStraddle : TSR :=
  ⟨1, 1, fun i => if i.val = 3 then (3, 4) else (0, 0), -1, "NULL"⟩

/-- The candidate pose with roll `3.5`, inside `[3, 4]` on the circle. -/
def pRoll35 : Pose6 := fun i => if i.val = 3 then 7 / 2 else 0

/-- The all-zero chart vector. -/
def z6 : Pose6 := fun _ => 0

/-- The identity TSR: identity frames and the zero box. -/
def tUnit : TSR := ⟨1, 1, fun _ => (0, 0), -1, "NULL"⟩

/-- The all-NaN pose (`NANBW` in the source). -/
def pAllNaN : Pose6N := fun _ => none

/-- Concrete uniform draws of `1/2` for every DOF. -/
def uHalf : Fin 6 → ℚ := fun _ => 1 / 2

/-- What sampling `tStraddle` with all-NaN input and draws `1/2` returns. -/
def rStraddle : Pose6 :=
  fun i =>
    if i.val = 3 then (3 : ℚ) + (4 - 3) * (1 / 2)
    else (0 : ℚ) + (0 - 0) * (1 / 2)

/-- A box whose translational x row `[0, 10]` exceeds the `2π` range. -/
def BwWide : Fin 6 → ℚ × ℚ := fun i => if i.val = 0 then (0, 10) else (0, 0)

/-- A box with every row `[0, 1]`. -/
def tBox01 : TSR := ⟨1, 1, fun _ => (0, 1), -1, "NULL"⟩

/-- A pose fixing DOF 0 at `1/2` and leaving the others NaN. -/
def pMix : Pose6N := fun i => if i.val = 0 then some (1 / 2) else none

/-- A nontrivial TSR for the serialization round-trip witness. -/
def t7 : TSR :=
  ⟨Matrix.of fun i j => if i = j then 1 else if i.val = 0 ∧ j.val = 3 then 2 else 0,
   Matrix.of fun i j => if i = j then 1 else if i.val = 1 ∧ j.val = 3 then 5 else 0,
   fun _ => (-1, 1), 3, "arm0"⟩

/-- A chain holding the single TSR `tUnit`. -/
def cOne : TSRChain := ⟨false, false, false, "NULL", [], [tUnit]⟩

/-- A chain of two copies of `tUnit`. -/
def cTwo : TSRChain := ⟨false, false, false, "NULL", [], [tUnit, tUnit]⟩

/-- The empty chain. -/
def cEmpty : TSRChain := ⟨false, false, false, "NULL", [], []⟩

/-- A trivial external geodesic metric for witnesses. -/
def g0 : Mat4 → Mat4 → ℚ := fun _ _ => 0

/-- A trivial external minimizer for witnesses; its return value is marked
so a theorem's conclusion shows the optimizer was not consulted. -/
def opt0 : (Pose6 → Except String ℚ) → Pose6 → (Fin 6 → ℚ × ℚ) → Pose6 × ℚ :=
  fun _ _ _ => (fun _ => 99, 37)

/-- A trivial chain-level external minimizer. -/
def optL0 : (List Pose6 → Except String ℚ) → List Pose6 → List (ℚ × ℚ) →
    List Pose6 × ℚ :=
  fun _ _ _ => ([], 37)

/-- A constant stream of chain-level uniform draws. -/
def u0 : Nat → Fin 6 → ℚ := fun _ _ => 0

/- ### Helper lemmas -/

lemma piQ_pos : 0 < piQ := by norm_num [piQ]

lemma allB_eq_true_iff (v : Fin 6 → Bool) :
    allB v = true ↔ ∀ i, v i = true := by
  unfold allB
  simp only [Bool.and_eq_true]
  constructor
  · rintro ⟨⟨⟨⟨⟨h0, h1⟩, h2⟩, h3⟩, h4⟩, h5⟩ i
    fin_cases i <;> assumption
  · intro h
    exact ⟨⟨⟨⟨⟨h 0, h 1⟩, h 2⟩, h 3⟩, h 4⟩, h 5⟩

lemma pymod_of_bounds (a b : ℚ) (n : ℤ) (hb : 0 < b)
    (h1 : (n : ℚ) * b ≤ a) (h2 : a < ((n : ℚ) + 1) * b) :
    pymod a b = a - b * n := by
  unfold pymod
  have hf : Int.floor (a / b) = n := by
    rw [Int.floor_eq_iff]
    constructor
    · rw [le_div_iff₀ hb]
      exact h1
    · rw [div_lt_iff₀ hb]
      linarith
  rw [hf]

lemma wrapAngle_of_principal (x : ℚ) (h1 : -piQ ≤ x) (h2 : x < piQ) :
    wrapAngle x = x := by
  unfold wrapAngle
  rw [pymod_of_bounds (x + piQ) (2 * piQ) 0 (by linarith [piQ_pos])
    (by push_cast; linarith) (by push_cast; linarith)]
  ring

lemma wrapAngle_of_second_turn (x : ℚ) (h1 : piQ ≤ x) (h2 : x < 3 * piQ) :
    wrapAngle x = x - 2 * piQ := by
  unfold wrapAngle
  rw [pymod_of_bounds (x + piQ) (2 * piQ) 1 (by linarith [piQ_pos])
    (by push_cast; linarith) (by push_cast; linarith)]
  ring

lemma wrapAngle_zero : wrapAngle 0 = 0 :=
  wrapAngle_of_principal 0 (by linarith [piQ_pos]) piQ_pos

lemma wrapAngle_one : wrapAngle 1 = 1 :=
  wrapAngle_of_principal 1 (by linarith [piQ_pos]) (by norm_num [piQ])

lemma wrapAngle_half : wrapAngle (1 / 2) = 1 / 2 :=
  wrapAngle_of_principal (1 / 2) (by linarith [piQ_pos]) (by norm_num [piQ])

lemma wrapAngle_three : wrapAngle 3 = 3 :=
  wrapAngle_of_principal 3 (by linarith [piQ_pos]) (by norm_num [piQ])

lemma wrapAngle_four : wrapAngle 4 = 4 - 2 * piQ :=
  wrapAngle_of_second_turn 4 (by norm_num [piQ]) (by norm_num [piQ])

lemma wrapAngle_seven_halves : wrapAngle (7 / 2) = 7 / 2 - 2 * piQ :=
  wrapAngle_of_second_turn (7 / 2) (by norm_num [piQ]) (by norm_num [piQ])

/-- The rotational entry of `is_valid` (no `ignoreNAN`) is the wrapped
comparison. -/
lemma rot_check_eq (t : TSR) (p : Pose6N) (i : Fin 6) (x : ℚ)
    (hi : 3 ≤ i.val) (hp : p i = some x) :
    t.is_valid p false i =
      decide (wrapAngle x + EPSILON ≥ wrapAngle (t.Bw i).1 ∧
              wrapAngle x - EPSILON ≤ wrapAngle (t.Bw i).2) := by
  unfold TSR.is_valid
  rw [hp]
  simp [not_lt.mpr hi]

lemma swapRollYaw_swapRollYaw (b : Pose6) :
    swapRollYaw (swapRollYaw b) = b := by
  funext i
  fin_cases i <;> rfl

lemma K0_left_inv : ∀ b, K0.fromH (K0.Tw b) = b := by
  intro b
  funext i
  fin_cases i <;> rfl

lemma bwOverLimit_iff (Bw : Fin 6 → ℚ × ℚ) :
    bwOverLimit Bw = true ↔
      ∃ i : Fin 6, (Bw i).2 - (Bw i).1 > 2 * piQ + EPSILON := by
  unfold bwOverLimit
  simp only [Bool.or_eq_true, decide_eq_true_eq]
  constructor
  · rintro (((((h | h) | h) | h) | h) | h)
    exacts [⟨0, h⟩, ⟨1, h⟩, ⟨2, h⟩, ⟨3, h⟩, ⟨4, h⟩, ⟨5, h⟩]
  · rintro ⟨i, hi⟩
    fin_cases i <;> tauto

/-- Validity of the zero pose for `tUnit` (all bounds are the point 0). -/
lemma tUnit_valid_z6 : allB (tUnit.is_valid (somePose z6) false) = true := by
  rw [allB_eq_true_iff]
  intro i
  fin_cases i <;>
    simp [TSR.is_valid, somePose, tUnit, z6, wrapAngle_zero] <;>
    norm_num [EPSILON, wrapAngle_zero]

/-- The straddling roll DOF of `tStraddle` rejects the in-interval roll
`3.5`. -/
lemma tStraddle_invalid_roll :
    tStraddle.is_valid (somePose pRoll35) false 3 = false := by
  rw [rot_check_eq tStraddle (somePose pRoll35) 3 (7 / 2) (by decide) rfl]
  rw [decide_eq_false_iff_not]
  have hb : tStraddle.Bw 3 = (3, 4) := rfl
  rw [hb]
  rintro ⟨h1, _⟩
  rw [wrapAngle_seven_halves, wrapAngle_three] at h1
  norm_num [piQ, EPSILON] at h1

/-- `to_xyzrpy` of the identity transform under `tUnit` and `K0` is the
zero chart vector. -/
lemma to_xyzrpy_tUnit_one : tUnit.to_xyzrpy K0 1 = z6 := by
  unfold TSR.to_xyzrpy
  rw [show tUnit.T0_w = (1 : Mat4) from rfl, show tUnit.Tw_e = (1 : Mat4) from rfl,
    inv_one, Matrix.one_mul, Matrix.mul_one]
  funext i
  fin_cases i <;> rfl

/-- `tUnit` contains the identity transform. -/
lemma tUnit_contains_one : allB (tUnit.contains K0 1) = true := by
  unfold TSR.contains
  rw [to_xyzrpy_tUnit_one]
  exact tUnit_valid_z6

/-- Updating `T0_w` leaves `is_valid` untouched (it only reads `Bw`). -/
lemma is_valid_update_T0w (t : TSR) (A : Mat4) (p : Pose6N) (f : Bool) :
    ({ t with T0_w := A } : TSR).is_valid p f = t.is_valid p f := rfl

/-- On a nonempty element list the chain loop fails immediately: the first
element's `to_transform` raises the ambiguous-truth-value error before the
loop can advance. -/
lemma chainStep_nonempty_error (K : Kin) (acc : Mat4) (t : TSR)
    (ts : List TSR) (p : Pose6) (ps : List Pose6) :
    chainStep K acc (t :: ts) (p :: ps) = Except.error ambiguousTruthMsg :=
  rfl

/-- Element-wise valid poses make every entry of the chain's check list
pass `all`. -/
lemma zip_checks_none_fail (ts : List TSR) :
    ∀ ps : List Pose6,
    (∀ q ∈ ts.zip ps, allB (q.1.is_valid (somePose q.2) false) = true) →
    (List.zipWith (fun t p => t.is_valid p false) ts
        (ps.map somePose)).any (fun v => ! allB v) = false := by
  induction ts with
  | nil => intro ps _; simp
  | cons t ts ih =>
      intro ps hv
      cases ps with
      | nil => simp
      | cons p ps =>
          simp only [List.map_cons, List.zipWith_cons_cons, List.any_cons]
          rw [hv (t, p) (by simp), ih ps (fun q hq => hv q (by simp [hq]))]
          simp

/-- `TSRChain.to_transform` on a nonempty chain with matching, element-wise
valid poses runs the loop from the head's `T0_w`. -/
lemma chain_to_transform_run (K : Kin) (c : TSRChain) (t0 : TSR)
    (rest : List TSR) (ps : List Pose6) (hc : c.TSRs = t0 :: rest)
    (hlen : ps.length = c.TSRs.length)
    (hv : ∀ q ∈ c.TSRs.zip ps, allB (q.1.is_valid (somePose q.2) false) = true) :
    c.to_transform K ps = chainStep K t0.T0_w c.TSRs ps := by
  have hiv : c.is_valid (ps.map somePose) false =
      Except.ok (List.zipWith (fun t p => t.is_valid p false) c.TSRs
        (ps.map somePose)) := by
    unfold TSRChain.is_valid
    rw [if_pos (by simpa using hlen)]
  unfold TSRChain.to_transform
  simp only [hiv]
  rw [zip_checks_none_fail c.TSRs ps hv]
  simp only [Bool.false_eq_true, if_false, hc]

/-- `TSRChain.to_transform` can never return a transform: every control
path ends in an error (the shape error, the invalid-pose error, the
empty-chain index error, a missing pose's index error, or — on the fully
valid path — the first element's ambiguous-truth-value crash). -/
lemma chain_to_transform_never_ok (K : Kin) (c : TSRChain) (ps : List Pose6)
    (r : Mat4 × List TSR) : c.to_transform K ps ≠ Except.ok r := by
  intro hr
  unfold TSRChain.to_transform at hr
  split at hr
  · exact Except.noConfusion hr
  · split at hr
    · exact Except.noConfusion hr
    · split at hr
      · exact Except.noConfusion hr
      · rename_i t0 tail heq
        rw [heq] at hr
        cases ps with
        | nil => exact Except.noConfusion hr
        | cons p ps2 => exact Except.noConfusion hr

/-- `parseMat4` undoes `dumpMat4`. -/
lemma parseMat4_dumpMat4 (M : Mat4) : parseMat4 (dumpMat4 M) = M := by
  ext i j
  fin_cases i <;> fin_cases j <;> rfl

/-- `parseBw` undoes `dumpBw`. -/
lemma parseBw_dumpBw (Bw : Fin 6 → ℚ × ℚ) : parseBw (dumpBw Bw) = Bw := by
  funext i
  fin_cases i <;> rfl

/-- `t7`'s box (every row `[-1, 1]`) passes the constructor range check. -/
lemma t7_bw_ok : bwOverLimit t7.Bw = false := by
  rw [Bool.eq_false_iff]
  intro hb
  obtain ⟨i, hi⟩ := (bwOverLimit_iff t7.Bw).1 hb
  have hrow : t7.Bw i = (-1, 1) := rfl
  rw [hrow] at hi
  norm_num [piQ, EPSILON] at hi

/-- The supplied-`Bw` equation of `TSR.init`. -/
lemma TSR.init_some (T0? Twe? : Option Mat4) (Bw : Fin 6 → ℚ × ℚ)
    (m? : Option Int) (s : String) :
    TSR.init T0? Twe? (some Bw) m? s =
      if bwOverLimit Bw then
        Except.error "ValueError: Bw range must be within 2*PI"
      else Except.ok ⟨T0?.getD 1, Twe?.getD 1, Bw, m?.getD (-1), s⟩ :=
  rfl

/- ### Claim C1 -/

/-- Claim C1 (counterexample): the roll bound interval `[3, 4]` of
`tStraddle` straddles ±π (since `3 < π < 4`), and the candidate roll `3.5`
lies inside that interval on the circle, yet `TSR.is_valid` reports the
roll DOF `False`: wrapping the two bounds independently to `[-π, π]` turns
the interval into the reversed range `[3, 4 - 2π]`, which no angle
satisfies. -/
theorem C1_cx :
    (3 < piQ ∧ piQ < 4) ∧
    ((tStraddle.Bw 3).1 ≤ pRoll35 3 ∧ pRoll35 3 ≤ (tStraddle.Bw 3).2) ∧
    tStraddle.is_valid (somePose pRoll35) false 3 = false := by
  have hb : tStraddle.Bw 3 = (3, 4) := rfl
  have hp : pRoll35 3 = 7 / 2 := rfl
  refine ⟨⟨by norm_num [piQ], by norm_num [piQ]⟩, ?_, tStraddle_invalid_roll⟩
  rw [hb, hp]
  norm_num

/-- Claim C1 (amended): both the rotational bounds and the candidate
rotation value are indeed wrapped to `[-π, π]` (with `EPSILON = 0.001`
slack) before the per-DOF comparison, but because the two bounds are
wrapped independently, a bound interval that straddles ±π wraps to a
reversed interval; whenever the wrapped bounds satisfy
`wrap lo > wrap hi + 2*EPSILON`, `is_valid` reports that rotational DOF
`False` for every candidate angle, including the angles inside the
original interval on the circle. -/
theorem C1_straddling_rot_dof_rejected (t : TSR) (i : Fin 6) (p : Pose6N)
    (x : ℚ) (hi : 3 ≤ i.val) (hp : p i = some x)
    (hrev : wrapAngle (t.Bw i).1 > wrapAngle (t.Bw i).2 + 2 * EPSILON) :
    t.is_valid p false i = false := by
  rw [rot_check_eq t p i x hi hp, decide_eq_false_iff_not]
  rintro ⟨h1, h2⟩
  have hε : 0 < EPSILON := by norm_num [EPSILON]
  linarith

/-- Claim C1 (witness): the amended theorem applied to `tStraddle`, whose
wrapped roll bounds are reversed, and the candidate roll `3.5`. -/
theorem C1_straddling_rot_dof_rejected_witness :
    (3 ≤ (3 : Fin 6).val ∧ somePose pRoll35 3 = some (7 / 2) ∧
      wrapAngle (tStraddle.Bw 3).1 > wrapAngle (tStraddle.Bw 3).2 + 2 * EPSILON) ∧
    tStraddle.is_valid (somePose pRoll35) false 3 = false := by
  have hb : tStraddle.Bw 3 = (3, 4) := rfl
  refine ⟨⟨by decide, rfl, ?_⟩, ?_⟩
  · rw [hb]
    rw [show (3, 4).1 = (3 : ℚ) from rfl, show (3, 4).2 = (4 : ℚ) from rfl]
    rw [wrapAngle_three, wrapAngle_four]
    norm_num [piQ, EPSILON]
  · exact C1_straddling_rot_dof_rejected tStraddle 3 (somePose pRoll35) (7 / 2)
      (by decide) rfl
      (by rw [hb, show (3, 4).1 = (3 : ℚ) from rfl,
            show (3, 4).2 = (4 : ℚ) from rfl, wrapAngle_three, wrapAngle_four]
          norm_num [piQ, EPSILON])

/- ### Claim C3 -/

/-- Claim C3 (amended): `TSR` construction with a supplied `Bw` raises the
validation error if and only if some row of `Bw` — translational rows
included, not only the rotational ones — has a range exceeding
`2π + EPSILON`; in particular construction succeeds whenever every row's
range is at most `2π`. -/
theorem C3_init_range_check (T0? Twe? : Option Mat4) (Bw : Fin 6 → ℚ × ℚ)
    (m? : Option Int) (s : String) :
    ((∃ e, TSR.init T0? Twe? (some Bw) m? s = Except.error e) ↔
      ∃ i : Fin 6, (Bw i).2 - (Bw i).1 > 2 * piQ + EPSILON) ∧
    ((∀ i : Fin 6, (Bw i).2 - (Bw i).1 ≤ 2 * piQ) →
      TSR.init T0? Twe? (some Bw) m? s =
        Except.ok ⟨T0?.getD 1, Twe?.getD 1, Bw, m?.getD (-1), s⟩) := by
  constructor
  · constructor
    · rintro ⟨e, he⟩
      by_cases hb : bwOverLimit Bw = true
      · exact (bwOverLimit_iff Bw).1 hb
      · exfalso
        rw [TSR.init_some, if_neg hb] at he
        exact Except.noConfusion he
    · intro hex
      refine ⟨"ValueError: Bw range must be within 2*PI", ?_⟩
      rw [TSR.init_some, if_pos ((bwOverLimit_iff Bw).2 hex)]
  · intro hall
    rw [TSR.init_some, if_neg ?_]
    intro hb
    obtain ⟨i, hi⟩ := (bwOverLimit_iff Bw).1 hb
    have := hall i
    have hε : 0 < EPSILON := by norm_num [EPSILON]
    linarith

/-- Claim C3 (counterexample): `BwWide` keeps every rotational range at
zero (well within `2π + ε`), yet construction raises the validation error
because the translational x row `[0, 10]` also goes through the
`2π + EPSILON` range check. -/
theorem C3_cx :
    ((BwWide 3).2 - (BwWide 3).1 ≤ 2 * piQ + EPSILON) ∧
    ((BwWide 4).2 - (BwWide 4).1 ≤ 2 * piQ + EPSILON) ∧
    ((BwWide 5).2 - (BwWide 5).1 ≤ 2 * piQ + EPSILON) ∧
    TSR.init none none (some BwWide) none "NULL" =
      Except.error "ValueError: Bw range must be within 2*PI" := by
  have h3 : BwWide 3 = (0, 0) := rfl
  have h4 : BwWide 4 = (0, 0) := rfl
  have h5 : BwWide 5 = (0, 0) := rfl
  have h0 : BwWide 0 = (0, 10) := rfl
  refine ⟨?_, ?_, ?_, ?_⟩
  · rw [h3]; norm_num [piQ, EPSILON]
  · rw [h4]; norm_num [piQ, EPSILON]
  · rw [h5]; norm_num [piQ, EPSILON]
  · rw [TSR.init_some,
      if_pos ((bwOverLimit_iff BwWide).2 ⟨0, by rw [h0]; norm_num [piQ, EPSILON]⟩)]

/-- Claim C3 (witness): a box with every row of range exactly `2π`
constructs successfully, by the amended theorem's success direction. -/
theorem C3_init_range_check_witness :
    (∀ i : Fin 6, (((fun _ => (0, 2 * piQ)) : Fin 6 → ℚ × ℚ) i).2 -
        (((fun _ => (0, 2 * piQ)) : Fin 6 → ℚ × ℚ) i).1 ≤ 2 * piQ) ∧
    TSR.init none none (some (fun _ => (0, 2 * piQ))) none "NULL" =
      Except.ok ⟨(none : Option Mat4).getD 1, (none : Option Mat4).getD 1,
        fun _ => (0, 2 * piQ), (none : Option Int).getD (-1), "NULL"⟩ :=
  ⟨fun _ => by norm_num,
   (C3_init_range_check none none (fun _ => (0, 2 * piQ)) none "NULL").2
     (fun _ => by norm_num)⟩

/- ### Claim C2 -/

/-- Claim C2 (code bug): `TSRChain.to_transform` never performs the fold
the claim (and the chain's own docstring, which promises a returned 4x4
transform) describe.  The chain's validity loop correctly uses the builtin
`all`, so element-wise valid poses pass it; but the loop then calls the
first element's `TSR.to_transform`, whose gate
`if not self.is_valid(xyzrpy):` applies `not` to a 6-element numpy boolean
array and raises the ambiguous-truth-value `ValueError` (tsr.py line 74)
on every call.  So for a chain `[t1, t2]` and element-wise valid poses
`[b1, b2]`, both the element call and the chain call end in that error,
and (final conjunct) no chain, pose list, or kin collaborator ever makes
`TSRChain.to_transform` return a transform. -/
theorem C2_chain_crashes_in_first_element (K : Kin) (c : TSRChain)
    (t1 t2 : TSR) (b1 b2 : Pose6) (hc : c.TSRs = [t1, t2])
    (h1 : allB (t1.is_valid (somePose b1) false) = true)
    (h2 : allB (t2.is_valid (somePose b2) false) = true) :
    t1.to_transform K b1 = Except.error ambiguousTruthMsg ∧
    c.to_transform K [b1, b2] = Except.error ambiguousTruthMsg ∧
    (∀ (K2 : Kin) (c2 : TSRChain) (ps : List Pose6) (r : Mat4 × List TSR),
      c2.to_transform K2 ps ≠ Except.ok r) := by
  have hv2 : ∀ q ∈ ([t1, t2] : List TSR).zip [b1, b2],
      allB (q.1.is_valid (somePose q.2) false) = true := by
    rintro q hq
    simp only [List.zip_cons_cons, List.zip_nil_right, List.mem_cons,
      List.not_mem_nil, or_false] at hq
    rcases hq with h | h
    · rw [h]; exact h1
    · rw [h]; exact h2
  refine ⟨rfl, ?_, fun K2 c2 ps r => chain_to_transform_never_ok K2 c2 ps r⟩
  rw [chain_to_transform_run K c t1 [t2] [b1, b2] hc (by simp [hc])
    (by rw [hc]; exact hv2)]
  rw [hc]
  exact chainStep_nonempty_error K t1.T0_w t1 [t2] b1 [b2]

/-- Claim C2 (witness): the crash theorem applied to the two-element chain
of identity TSRs at the zero poses, which are element-wise valid. -/
theorem C2_chain_crashes_in_first_element_witness :
    (cTwo.TSRs = [tUnit, tUnit] ∧
     allB (tUnit.is_valid (somePose z6) false) = true ∧
     allB (tUnit.is_valid (somePose z6) false) = true) ∧
    (tUnit.to_transform K0 z6 = Except.error ambiguousTruthMsg ∧
     cTwo.to_transform K0 [z6, z6] = Except.error ambiguousTruthMsg ∧
     (∀ (K2 : Kin) (c2 : TSRChain) (ps : List Pose6) (r : Mat4 × List TSR),
       c2.to_transform K2 ps ≠ Except.ok r)) :=
  ⟨⟨rfl, tUnit_valid_z6, tUnit_valid_z6⟩,
   C2_chain_crashes_in_first_element K0 cTwo tUnit tUnit z6 z6 rfl
     tUnit_valid_z6 tUnit_valid_z6⟩

/- ### Claim C4 -/

/-- Claim C4 (code bug): `to_xyzrpy (to_transform b0)` cannot recover `b0`
for any TSR or chart vector whatsoever, because `TSR.to_transform` never
returns a transform: its gate `if not self.is_valid(xyzrpy):` applies
`not` to the 6-element numpy check array and raises the
ambiguous-truth-value `ValueError` (tsr.py line 74) on every call — shown
here even for the zero-width box `tUnit` at its in-box, `is_valid`-passing
center `z6`, and in general (fourth conjunct).  The claim's description of
`to_xyzrpy` itself (tsr.py lines 83-95, which are not dead code) is the
evident intent and is sound: conjugating the intended product
`T0_w * Tw(b) * Tw_e` by the inverses of `T0_w`/`Tw_e` and decomposing
through the kin collaborator recovers `b` exactly (final conjunct, for
invertible frames and a kin decomposition inverting the kin chart map). -/
theorem C4_to_transform_never_returns :
    (∀ i : Fin 6, (tUnit.Bw i).1 ≤ z6 i ∧ z6 i ≤ (tUnit.Bw i).2) ∧
    allB (tUnit.is_valid (somePose z6) false) = true ∧
    tUnit.to_transform K0 z6 = Except.error ambiguousTruthMsg ∧
    (∀ (K : Kin) (t : TSR) (b : Pose6), isOkE (t.to_transform K b) = false) ∧
    (∀ (K : Kin) (t : TSR) (b : Pose6), (∀ v, K.fromH (K.Tw v) = v) →
      IsUnit t.T0_w.det → IsUnit t.Tw_e.det →
      t.to_xyzrpy K (t.T0_w * K.Tw (swapRollYaw b) * t.Tw_e) = b) := by
  refine ⟨?_, tUnit_valid_z6, rfl, fun K t b => rfl, ?_⟩
  · intro i
    constructor <;> norm_num [tUnit, z6]
  · intro K t b hK h1 h2
    unfold TSR.to_xyzrpy
    letI := t.T0_w.invertibleOfIsUnitDet h1
    letI := t.Tw_e.invertibleOfIsUnitDet h2
    rw [Matrix.mul_assoc t.T0_w (K.Tw (swapRollYaw b)) t.Tw_e,
      Matrix.inv_mul_cancel_left_of_invertible,
      Matrix.mul_inv_cancel_right_of_invertible, hK, swapRollYaw_swapRollYaw]

/- ### Claim C5 -/

/-- Claim C5 (amended): `sample_xyzrpy` raises the bounds error exactly
when the `ignoreNAN` validity check fails; on success, DOFs with a
concrete input are passed through unchanged and each NaN DOF receives
`Bw[i,0] + (Bw[i,1]-Bw[i,0]) * u i`, a uniform draw that stays inside
`[Bw[i,0], Bw[i,1]]`.  (The original claim's final conjunct — that every
returned vector satisfies `is_valid` with all six checks true — is refuted
by the counterexample, because the rotational checks wrap the bounds.) -/
theorem C5_sample_draws (t : TSR) (p : Pose6N) (u : Fin 6 → ℚ)
    (hu : ∀ i, 0 ≤ u i ∧ u i < 1) (hB : ∀ i, (t.Bw i).1 ≤ (t.Bw i).2) :
    (allB (t.is_valid p true) = false →
      t.sample_xyzrpy p u =
        Except.error "ValueError: xyzrpy must be within bounds") ∧
    (allB (t.is_valid p true) = true →
      ∃ r, t.sample_xyzrpy p u = Except.ok r ∧
        (∀ i x, p i = some x → r i = x) ∧
        (∀ i, p i = none →
          r i = (t.Bw i).1 + ((t.Bw i).2 - (t.Bw i).1) * u i ∧
          (t.Bw i).1 ≤ r i ∧ r i ≤ (t.Bw i).2)) := by
  constructor
  · intro h
    unfold TSR.sample_xyzrpy
    rw [if_neg (by rw [h]; exact Bool.false_ne_true)]
  · intro h
    unfold TSR.sample_xyzrpy
    rw [if_pos h]
    refine ⟨_, rfl, ?_, ?_⟩
    · intro i x hp
      simp only [hp]
    · intro i hp
      have h0 : 0 ≤ ((t.Bw i).2 - (t.Bw i).1) * u i :=
        mul_nonneg (by linarith [hB i]) (hu i).1
      have hle : ((t.Bw i).2 - (t.Bw i).1) * u i ≤ ((t.Bw i).2 - (t.Bw i).1) * 1 :=
        mul_le_mul_of_nonneg_left (le_of_lt (hu i).2) (by linarith [hB i])
      refine ⟨by simp only [hp], ?_, ?_⟩
      · simp only [hp]
        linarith
      · simp only [hp]
        nlinarith

/-- Claim C5 (counterexample): sampling `tStraddle` with an all-NaN input
and uniform draws `1/2` yields `rStraddle` (roll `3.5`, inside the box),
but the sampled chart vector fails `is_valid` on the roll DOF, so not
every sampled vector satisfies `is_valid` with all checks true. -/
theorem C5_cx :
    tStraddle.sample_xyzrpy pAllNaN uHalf = Except.ok rStraddle ∧
    rStraddle 3 = 7 / 2 ∧
    tStraddle.is_valid (somePose rStraddle) false 3 = false ∧
    allB (tStraddle.is_valid (somePose rStraddle) false) = false := by
  have e : rStraddle 3 = 3 + (4 - 3) * (1 / 2 : ℚ) := rfl
  have hr3 : rStraddle 3 = 7 / 2 := by rw [e]; norm_num
  have hiv3 : tStraddle.is_valid (somePose rStraddle) false 3 = false := by
    rw [rot_check_eq tStraddle (somePose rStraddle) 3 (rStraddle 3) (by decide) rfl]
    rw [hr3, decide_eq_false_iff_not]
    have hb : tStraddle.Bw 3 = (3, 4) := rfl
    rw [hb, show ((3 : ℚ), (4 : ℚ)).1 = (3 : ℚ) from rfl,
      show ((3 : ℚ), (4 : ℚ)).2 = (4 : ℚ) from rfl]
    rintro ⟨hcontra, _⟩
    rw [wrapAngle_seven_halves, wrapAngle_three] at hcontra
    norm_num [piQ, EPSILON] at hcontra
  refine ⟨?_, hr3, hiv3, ?_⟩
  · unfold TSR.sample_xyzrpy
    rw [if_pos ?_]
    · exact congrArg Except.ok (funext fun i => by fin_cases i <;> rfl)
    · rw [allB_eq_true_iff]
      intro i
      fin_cases i <;> rfl
  · unfold allB
    rw [hiv3]
    simp

/-- Claim C5 (witness): the amended theorem applied to `tBox01` with DOF 0
fixed at `1/2` and the other DOFs drawn at `1/2`. -/
theorem C5_sample_draws_witness :
    ((∀ i, 0 ≤ uHalf i ∧ uHalf i < 1) ∧
      (∀ i, (tBox01.Bw i).1 ≤ (tBox01.Bw i).2)) ∧
    ((allB (tBox01.is_valid pMix true) = false →
      tBox01.sample_xyzrpy pMix uHalf =
        Except.error "ValueError: xyzrpy must be within bounds") ∧
    (allB (tBox01.is_valid pMix true) = true →
      ∃ r, tBox01.sample_xyzrpy pMix uHalf = Except.ok r ∧
        (∀ i x, pMix i = some x → r i = x) ∧
        (∀ i, pMix i = none →
          r i = (tBox01.Bw i).1 + ((tBox01.Bw i).2 - (tBox01.Bw i).1) * uHalf i ∧
          (tBox01.Bw i).1 ≤ r i ∧ r i ≤ (tBox01.Bw i).2))) :=
  ⟨⟨fun _ => by constructor <;> norm_num [uHalf],
    fun _ => by norm_num [tBox01]⟩,
   C5_sample_draws tBox01 pMix uHalf
     (fun _ => by constructor <;> norm_num [uHalf])
     (fun _ => by norm_num [tBox01])⟩

/- ### Claim C6 -/

/-- Claim C6: if the transform already satisfies all six per-DOF checks
(`contains` is all-true), `distance` returns exactly `(0, to_xyzrpy trans)`
for every external metric `g` and every external minimizer `opt` — the
optimizer is never consulted. -/
theorem C6_distance_inside (K : Kin) (g : Mat4 → Mat4 → ℚ)
    (opt : (Pose6 → Except String ℚ) → Pose6 → (Fin 6 → ℚ × ℚ) → Pose6 × ℚ)
    (t : TSR) (trans : Mat4)
    (h : allB (t.contains K trans) = true) :
    t.distance K g opt trans = (0, t.to_xyzrpy K trans) := by
  unfold TSR.distance
  rw [if_pos h]

/-- Claim C6 (witness): `tUnit` contains the identity transform, and its
distance is `(0, to_xyzrpy 1)` even under a dummy optimizer that would
return distance `37`. -/
theorem C6_distance_inside_witness :
    allB (tUnit.contains K0 1) = true ∧
    tUnit.distance K0 g0 opt0 1 = (0, tUnit.to_xyzrpy K0 1) :=
  ⟨tUnit_contains_one, C6_distance_inside K0 g0 opt0 tUnit 1 tUnit_contains_one⟩

/- ### Claim C7 -/

/-- Claim C7: `from_dict (to_dict t)` reproduces `t` exactly — matrices,
box, `manipindex` and `bodyandlink` — whenever `t` is constructible (its
box passes the constructor's range check, which `from_dict` re-runs). -/
theorem C7_dict_roundtrip (t : TSR) (h : bwOverLimit t.Bw = false) :
    TSR.from_dict t.to_dict = Except.ok t := by
  have hred : TSR.from_dict t.to_dict =
      TSR.init (some (parseMat4 (dumpMat4 t.T0_w)))
        (some (parseMat4 (dumpMat4 t.Tw_e)))
        (some (parseBw (dumpBw t.Bw))) (some t.manipindex) t.bodyandlink := rfl
  rw [hred, parseMat4_dumpMat4, parseMat4_dumpMat4, parseBw_dumpBw,
    TSR.init_some, if_neg (by rw [h]; exact Bool.false_ne_true)]
  rfl

/-- Claim C7 (witness): the round trip on the nontrivial TSR `t7`. -/
theorem C7_dict_roundtrip_witness :
    bwOverLimit t7.Bw = false ∧ TSR.from_dict t7.to_dict = Except.ok t7 :=
  ⟨t7_bw_ok, C7_dict_roundtrip t7 t7_bw_ok⟩

/- ### Claim C8 -/

/-- Claim C8: `TSRChain.from_json (c.to_json)` (and likewise `from_yaml`)
never reconstructs a chain: the source delegates to `TSR.from_dict`, which
looks up the key `"T0_w"` in the chain dictionary — a key the chain
dictionary does not contain — and so raises `KeyError` for every chain
`c`. -/
theorem C8_chain_json_roundtrip_fails (c : TSRChain) :
    TSRChain.from_json c.to_json = Except.error "KeyError: T0_w" ∧
    TSRChain.from_yaml c.to_yaml = Except.error "KeyError: T0_w" :=
  ⟨rfl, rfl⟩

/- ### Claim C9 -/

/-- Claim C9: `TSRChain.is_valid` with a pose list whose length differs
from the chain's TSR count fails with the shape error — and the failure
depends only on the length, not on the list's contents, so it precedes any
per-element numeric check (in the source the `raise('...')` of a plain
string itself raises a `TypeError`, still an immediate failure); with
matching lengths it returns exactly the list of the per-TSR `is_valid`
vectors. -/
theorem C9_chain_shape_check (c : TSRChain) (ps : List Pose6N) (f : Bool) :
    (ps.length ≠ c.TSRs.length →
      (∀ qs : List Pose6N, qs.length = ps.length →
        c.is_valid qs f =
          Except.error "Sample must be of equal length to TSR chain!")) ∧
    (ps.length = c.TSRs.length →
      ∃ checks, c.is_valid ps f = Except.ok checks ∧
        checks.length = c.TSRs.length ∧
        ∀ (i : Nat) (h1 : i < c.TSRs.length) (h2 : i < checks.length)
          (h3 : i < ps.length),
          checks.get ⟨i, h2⟩ = (c.TSRs.get ⟨i, h1⟩).is_valid (ps.get ⟨i, h3⟩) f) := by
  constructor
  · intro hne qs hq
    unfold TSRChain.is_valid
    rw [if_neg (by rw [hq]; exact hne)]
  · intro heq
    refine ⟨List.zipWith (fun t p => t.is_valid p f) c.TSRs ps, ?_, ?_, ?_⟩
    · unfold TSRChain.is_valid
      rw [if_pos heq]
    · rw [List.length_zipWith, heq, Nat.min_self]
    · intro i h1 h2 h3
      simp [List.get_eq_getElem, List.getElem_zipWith]

/-- Claim C9 (witness): the one-element chain `cOne` rejects the empty
pose list. -/
theorem C9_chain_shape_check_witness :
    ([] : List Pose6N).length ≠ cOne.TSRs.length ∧
    TSRChain.is_valid cOne [] false =
      Except.error "Sample must be of equal length to TSR chain!" :=
  ⟨by simp [cOne],
   (C9_chain_shape_check cOne [] false).1 (by simp [cOne]) [] rfl⟩

/- ### Claim C10 -/

/-- Claim C10: a chain with an empty TSR list accepts the empty pose list
in `is_valid` (returning the empty check list), but `to_transform []`
fails with the index error when it reads `TSRs[0].T0_w`; consequently
`sample` (which feeds the empty sampled pose list into `to_transform`) and
the `distance` objective (whose reshaped stacked vector for an empty chain
is the empty pose list) fail the same way: these operations carry an
unstated nonemptiness precondition. -/
theorem C10_empty_chain (c : TSRChain) (hc : c.TSRs = []) (K : Kin)
    (u : Nat → Fin 6 → ℚ) (g : Mat4 → Mat4 → ℚ) (trans : Mat4) :
    c.is_valid [] false = Except.ok [] ∧
    c.to_transform K [] = Except.error "IndexError: list index out of range" ∧
    c.sample K u = Except.error "IndexError: list index out of range" ∧
    c.distanceObjective K g trans [] =
      Except.error "IndexError: list index out of range" := by
  have hiv : c.is_valid [] false = Except.ok [] := by
    unfold TSRChain.is_valid
    rw [if_pos (by rw [hc]; rfl)]
    rw [hc]
    rfl
  have htt : c.to_transform K [] =
      Except.error "IndexError: list index out of range" := by
    unfold TSRChain.to_transform
    simp only [List.map_nil, hiv, List.any_nil, Bool.false_eq_true, if_false, hc]
  refine ⟨hiv, htt, ?_, ?_⟩
  · unfold TSRChain.sample TSRChain.sample_xyzrpy
    rw [hc]
    simp only [List.length_nil, List.replicate_zero, Option.getD_none]
    rw [show sampleFrom u 0 [] [] = Except.ok [] from rfl]
    simp only [htt]
  · unfold TSRChain.distanceObjective
    simp only [htt]

/-- Claim C10 (witness): the concrete empty chain `cEmpty` under the
concrete kin instance, draws, and metric. -/
theorem C10_empty_chain_witness :
    cEmpty.TSRs = [] ∧
    (cEmpty.is_valid [] false = Except.ok [] ∧
    cEmpty.to_transform K0 [] = Except.error "IndexError: list index out of range" ∧
    cEmpty.sample K0 u0 = Except.error "IndexError: list index out of range" ∧
    cEmpty.distanceObjective K0 g0 1 [] =
      Except.error "IndexError: list index out of range") :=
  ⟨rfl, C10_empty_chain cEmpty rfl K0 u0 g0 1⟩

end Prpy
